import Mathlib

/-
Verification development for the Seismic Event Characterization Engine:
a shallow embedding in Lean 4 of the magnitude-estimation module
(src/core/magnitude.py), the epicenter-location module
(src/core/location/one_d_location.py) and the phase-pick detector
(src/core/picking.py), together with theorems settling the specification
claims about them.

Modelling conventions:
- Python floats are modelled as real numbers; machine overflow and NaN of
  IEEE arithmetic are out of scope except where the source explicitly
  tests finiteness, in which case the test is translated to the exact
  condition under which the real-number computation would be non-finite
  (division by zero).
- NumPy arrays are modelled as lists of reals; the relevant NumPy
  primitives (arange, median, convolve in valid mode, cumsum, slicing,
  1-D broadcasting of divide) are embedded with their documented
  semantics.
- Optional external ObsPy facilities (the bandpass filter chosen inside
  the helper called bandpass in the source, the availability of
  simulate_seismometer, and the filesystem-reading instrument-response
  removal) are not determined by the repository alone; they are modelled
  as an explicit environment record over which the theorems quantify.
-/

namespace Seismic

/-- Python int() applied to a float: truncation toward zero. -/
noncomputable def pyInt (x : ℝ) : ℤ := if 0 ≤ x then ⌊x⌋ else ⌈x⌉

/-- Clamp a Python slice endpoint to an index of a list of length n:
negative endpoints count from the end, positive ones are capped at n. -/
def pySliceIdx (n : ℕ) (i : ℤ) : ℕ := if i < 0 then ((n : ℤ) + i).toNat else min i.toNat n

/-- Python list slicing l[a:b] (step 1), with negative-index wrapping. -/
def pySlice {α : Type} (l : List α) (a b : ℤ) : List α :=
  (l.take (pySliceIdx l.length b)).drop (pySliceIdx l.length a)

/-- Python truthiness of an optional string: None and the empty string are falsy. -/
def pyTruthyStr : Option String → Bool
  | none => false
  | some s => !s.isEmpty

/-- Python substring membership test (the in operator on strings). -/
def strContains (s pat : String) : Bool :=
  s.data.tails.any fun t => pat.data.isPrefixOf t

/-- NumPy cumulative sum of a list (partial sums, same length). -/
def npCumsum (l : List ℝ) : List ℝ :=
  (List.range l.length).map fun i => (l.take (i + 1)).sum

/-- Arithmetic mean of a list (NumPy mean). -/
noncomputable def meanList (l : List ℝ) : ℝ := l.sum / l.length

/-- NumPy arange start stop step: the points start + i * step for
0 <= i < max 0 (ceil ((stop - start) / step)).  A zero step raises in
NumPy and is modelled by the empty list (never exercised here). -/
noncomputable def npArange (start stop step : ℝ) : List ℝ :=
  if step = 0 then []
  else (List.range (max 0 ⌈(stop - start) / step⌉).toNat).map
    fun i : ℕ => start + (i : ℝ) * step

/-- NumPy median: sort ascending, take the middle element for odd length
and the average of the two middle elements for even length. -/
noncomputable def npMedian (l : List ℝ) : ℝ :=
  let s := l.mergeSort fun a b => decide (a ≤ b)
  let n := s.length
  if n % 2 = 1 then s.getD (n / 2) 0
  else (s.getD (n / 2 - 1) 0 + s.getD (n / 2) 0) / 2

/-- Maximum absolute value of a list, 0 for the empty list
(np.max of np.abs, guarded by the callers for nonemptiness). -/
noncomputable def maxAbsList : List ℝ → ℝ
  | [] => 0
  | h :: t => t.foldl (fun m v => max m |v|) |h|

/- ===================== magnitude.py ===================== -/

/-- A pick dictionary as consumed by magnitude.py: station, phase and
time_rel (seconds relative to trace start). -/
structure PickD where
  station : String
  phase : String
  time_rel : ℝ

/-- Result record of the magnitude estimators (dataclass MagnitudeResult).
Optional float fields are None on failure paths. -/
structure MagnitudeResult where
  ml : Option ℝ
  amplitude_mm : Option ℝ
  delta_ps : Option ℝ
  distance_km : Option ℝ
  notes : String
  method : String
  warnings : List String
  instrument_response_removed : Bool
  sensor_type : Option String
  units_assumed : Option String

/-- DEFAULT_BAND = (1.0, 20.0) Hz. -/
def DEFAULT_BAND : ℝ × ℝ := (1.0, 20.0)

/-- Crude distance estimate (km) from the P-S time difference
(function estimate_distance_from_ps in the source). -/
noncomputable def estimateDistanceFromPs (deltaPs : ℝ) : ℝ := deltaPs * 8.4

/-- Piecewise log10 A0(R) approximation, Hutton and Boore 1987
(function log10_a0_hutton_boore in the source). -/
noncomputable def log10A0HuttonBoore (distanceKm : ℝ) : ℝ :=
  if distanceKm ≤ 60.0 then 0.018 * distanceKm + 2.17
  else 0.0038 * distanceKm + 3.02

/-- ML from amplitude and distance (function compute_ml_hutton_boore);
the source raises ValueError on non-positive amplitude or distance,
modelled as none. -/
noncomputable def computeMlHuttonBoore (amplitudeMm distanceKm : ℝ) : Option ℝ :=
  if amplitudeMm ≤ 0 ∨ distanceKm ≤ 0 then none
  else some (Real.logb 10 amplitudeMm - log10A0HuttonBoore distanceKm)

/-- Least-squares line fit (slope, intercept) of data against indices
0, 1, ..., n-1, as computed by np.linalg.lstsq in preprocess_array.
For n at least 2 the design matrix has full column rank and the solution
is the normal-equations one; for n = 1 lstsq returns the minimum-norm
solution (0, data[0]). -/
noncomputable def lstsqLine (data : List ℝ) : ℝ × ℝ :=
  match data with
  | [] => (0, 0)
  | [v] => (0, v)
  | _ =>
    let n : ℝ := data.length
    let xs := (List.range data.length).map fun i => (i : ℝ)
    let sx := xs.sum
    let sy := data.sum
    let sxx := (xs.map fun v => v * v).sum
    let sxy := (List.zipWith (fun a b => a * b) xs data).sum
    let m := (n * sxy - sx * sy) / (n * sxx - sx * sx)
    ((n * sxy - sx * sy) / (n * sxx - sx * sx), (sy - m * sx) / n)

/-- Cosine half-ramp of length k used by the 5 percent taper:
ramp j = 0.5 * (1 - cos (linspace 0 pi k at j)); np.linspace 0 pi 1 = [0]. -/
noncomputable def taperRamp (k j : ℕ) : ℝ :=
  if k ≤ 1 then 0.5 * (1 - Real.cos 0)
  else 0.5 * (1 - Real.cos (j * Real.pi / (k - 1 : ℕ)))

/-- Taper window value at index i for length n and ramp width k:
the assignment window[-k:] = reversed ramp is applied after
window[:k] = ramp, so the tail assignment wins on overlap. -/
noncomputable def taperWindow (n k i : ℕ) : ℝ :=
  if n - k ≤ i then taperRamp k (n - 1 - i)
  else if i < k then taperRamp k i
  else 1

/-- Detrend (least-squares line removal), demean, and 5 percent cosine
taper (function preprocess_array in the source). -/
noncomputable def preprocessArray (data : List ℝ) : List ℝ :=
  if data.length = 0 then data
  else
    let mc := lstsqLine data
    let detr := (List.zipWith (fun (v : ℝ) (i : ℕ) => v - (mc.1 * (i : ℝ) + mc.2)) data
      (List.range data.length))
    let mu := meanList detr
    let detr2 := detr.map fun v => v - mu
    let n := data.length
    let k := (pyInt (max 1 ((n : ℝ) * 0.05))).toNat
    List.zipWith (fun v i => v * taperWindow n k i) detr2 (List.range n)

/-- Cumulative trapezoidal integration (function integrate in the
source): cumsum of pairwise averages scaled by dt = 1/sr; the output is
one sample shorter than the input. -/
noncomputable def integrateTrapezoid (data : List ℝ) (sr : ℝ) : List ℝ :=
  if data.length = 0 then data
  else (npCumsum (List.zipWith (fun a b => (a + b) * 0.5) data data.tail)).map
    fun v => v * (1 / sr)

/-- Unit classification from the channel metadata (function
detect_units_from_trace_stats).  The trace-stats argument is modelled by
the channel attribute; a falsy stats object takes the first branch. -/
def detectUnitsFromTraceStats (traceStats : Option String) : String × List String :=
  match traceStats with
  | none => ("cm/s²", ["Sin metadatos de traza - asumiendo cm/s²"])
  | some ch =>
    let c := ch.toUpper
    if c.startsWith "HN" || c.startsWith "BN" then
      ("m/s²", ["Canal acelerómetro detectado - asumiendo m/s²"])
    else if c.startsWith "HH" || c.startsWith "BH" then
      ("m/s", ["Canal velocímetro detectado - asumiendo m/s"])
    else if c.startsWith "HL" || c.startsWith "BL" then
      ("m", ["Canal desplazamiento detectado - asumiendo m"])
    else
      ("cm/s²", ["Canal desconocido (" ++ c ++ ") - asumiendo cm/s²"])

/-- Environment of optional external ObsPy facilities, which the
repository probes at import time and which are not determined by the
source alone.  bandpassImpl is the behaviour of the helper bandpass
(data, sr, freqmin, freqmax): the ObsPy Butterworth filter when
importable, otherwise the FFT fallback.  simulateAvailable records
whether simulate_seismometer imported.  removeResponse is the behaviour
of remove_instrument_response (data, sr, inventory_path, station,
channel, network), which reads the filesystem: it returns the possibly
corrected samples and a warnings list. -/
structure ObsPyEnv where
  bandpassImpl : List ℝ → ℝ → ℝ → ℝ → List ℝ
  simulateAvailable : Bool
  removeResponse : List ℝ → ℝ → String → String → String → String → List ℝ × List String

/-- Inventory handling stage of estimate_local_magnitude_wa_with_response:
returns (working data, warnings appended at this stage,
response_removed flag, sensor_type string). -/
noncomputable def inventoryStage (env : ObsPyEnv) (data : List ℝ) (sr : ℝ)
    (inventoryPath : Option String) (station channel network : String) :
    List ℝ × List String × Bool × String :=
  if pyTruthyStr inventoryPath then
    let rw := env.removeResponse data sr (inventoryPath.getD "") station channel network
    if strContains (String.intercalate " " rw.2) "exitosamente" then
      (rw.1, rw.2, true, "Con inventario")
    else (data, rw.2, false, "Desconocido")
  else (data, ["Sin inventario - procesamientos heurísticos"], false, "Desconocido")

/-- Band-limit clamping step: the upper cutoff of DEFAULT_BAND is pulled
down to 0.45 * sr with a warning exactly when the Nyquist frequency
sr * 0.5 lies below it. -/
noncomputable def clampedFmax (sr : ℝ) : ℝ × List String :=
  if sr * 0.5 < DEFAULT_BAND.2 then (sr * 0.45, ["fmax recortado a Nyquist*0.45"])
  else (DEFAULT_BAND.2, [])

/-- Conversion of the band-passed signal to displacement in millimeters
according to the classified units (the unit dispatch block of
estimate_local_magnitude_wa_with_response); the second component is the
warning appended by the unreachable unknown-units branch. -/
noncomputable def displacementMm (units : String) (dataBp : List ℝ) (sr : ℝ) :
    List ℝ × List String :=
  if units = "m/s²" then
    ((integrateTrapezoid (integrateTrapezoid dataBp sr) sr).map fun v => v * 1000.0, [])
  else if units = "cm/s²" then
    ((integrateTrapezoid (integrateTrapezoid (dataBp.map fun v => v / 100.0) sr) sr).map
      fun v => v * 1000.0, [])
  else if units = "m/s" then
    ((integrateTrapezoid dataBp sr).map fun v => v * 1000.0, [])
  else if units = "m" then
    (dataBp.map fun v => v * 1000.0, [])
  else
    ((integrateTrapezoid (integrateTrapezoid (dataBp.map fun v => v / 100.0) sr) sr).map
      fun v => v * 1000.0, ["Unidades desconocidas - asumiendo cm/s²"])

/-- Body of estimate_local_magnitude_wa_with_response from the point
where picks, delta, distance, sampling rate and data have passed the
early guards. -/
noncomputable def waCore (env : ObsPyEnv) (pPick : PickD) (delta distance sr : ℝ)
    (data : List ℝ) (inventoryPath : Option String) (traceStats : Option String)
    (network channel station : String) : MagnitudeResult :=
  let ud := detectUnitsFromTraceStats traceStats
  let inv := inventoryStage env data sr inventoryPath station channel network
  let warnings2 := ud.2 ++ inv.2.1
  let dataPp := preprocessArray inv.1
  let cf := clampedFmax sr
  let warnings3 := warnings2 ++ cf.2
  let dataBp := env.bandpassImpl dataPp sr DEFAULT_BAND.1 cf.1
  let dm := displacementMm ud.1 dataBp sr
  let warnings4 := warnings3 ++ dm.2
  let waMm := if env.simulateAvailable then env.bandpassImpl dm.1 sr 0.5 8.0 else dm.1
  if waMm.length = 0 then
    ⟨none, none, some delta, some distance, "Sin datos WA", "wood_anderson_inst",
      warnings4 ++ ["Vector vacio"], inv.2.2.1, some inv.2.2.2, some ud.1⟩
  else
    let pTime := pPick.time_rel
    let winLen := min (delta * 2.0) 15.0
    let startIdx := pyInt (pTime * sr)
    let endIdx := min (pyInt ((pTime + winLen) * sr)) (waMm.length : ℤ)
    if endIdx ≤ startIdx then
      ⟨none, none, some delta, some distance, "Ventana vacia", "wood_anderson_inst",
        warnings4 ++ ["Ventana vacia"], inv.2.2.1, some inv.2.2.2, some ud.1⟩
    else
      let window := pySlice waMm startIdx endIdx
      let peakMm := if window.length ≠ 0 then maxAbsList window else 0.0
      if peakMm ≤ 0 then
        ⟨none, some peakMm, some delta, some distance, "Amplitud nula", "wood_anderson_inst",
          warnings4 ++ ["Pico=0"], inv.2.2.1, some inv.2.2.2, some ud.1⟩
      else
        match computeMlHuttonBoore peakMm distance with
        | none =>
          ⟨none, some peakMm, some delta, some distance,
            "Error ML: Amplitud o distancia invalida para ML", "wood_anderson_inst",
            warnings4 ++ ["Error computo ML"], inv.2.2.1, some inv.2.2.2, some ud.1⟩
        | some ml =>
          ⟨some ml, some peakMm, some delta, some distance,
            (if inv.2.2.1 then "ML Wood-Anderson (respuesta ✓)"
             else "ML Wood-Anderson (respuesta ✗)"), "wood_anderson_inst",
            warnings4
              ++ (if inv.2.2.1 then [] else ["⚠️ IMPORTANTE: Respuesta instrumental no removida"])
              ++ ["📍 Distancia estimada de P-S (una estación)",
                  "🔬 Magnitud preliminar - requiere calibración regional"],
            inv.2.2.1, some inv.2.2.2, some ud.1⟩

/-- First pick of a given phase among the picks of a given station
(the station filter followed by next() in the source). -/
def findStationPhase (picks : List PickD) (station phase : String) : Option PickD :=
  (picks.filter fun p => p.station = station).find? fun p => p.phase = phase

/-- Estimate ML with Wood-Anderson approximation and optional instrument
response correction (function estimate_local_magnitude_wa_with_response). -/
noncomputable def estimateLocalMagnitudeWaWithResponse (env : ObsPyEnv)
    (picks : List PickD) (traceData : List ℝ) (traceSamplingRate : ℝ)
    (station : String) (inventoryPath : Option String) (traceStats : Option String)
    (network channel : String) : MagnitudeResult :=
  match findStationPhase picks station "P", findStationPhase picks station "S" with
  | some pPick, some sPick =>
    let delta := sPick.time_rel - pPick.time_rel
    if delta ≤ 0 then
      ⟨none, none, none, none, "DeltaP-S invalida", "wood_anderson_inst",
        ["DeltaP-S <= 0"], false, none, none⟩
    else
      let distance := estimateDistanceFromPs delta
      if traceSamplingRate ≤ 0 ∨ traceData.length < 10 then
        ⟨none, none, some delta, some distance, "Datos insuficientes", "wood_anderson_inst",
          ["Datos insuficientes"], false, none, none⟩
      else
        waCore env pPick delta distance traceSamplingRate traceData inventoryPath
          traceStats network channel station
  | _, _ =>
    ⟨none, none, none, none, "Faltan picks P/S", "wood_anderson_inst",
      ["Se requieren picks P y S"], false, none, none⟩

/-- Basic Wood-Anderson variant (function estimate_local_magnitude_wa):
delegates to the with-response variant with no inventory path, no trace
stats and the default network and channel codes. -/
noncomputable def estimateLocalMagnitudeWa (env : ObsPyEnv) (picks : List PickD)
    (traceData : List ℝ) (traceSamplingRate : ℝ) (station : String) : MagnitudeResult :=
  estimateLocalMagnitudeWaWithResponse env picks traceData traceSamplingRate station
    none none "XX" "CH"

/- ===================== one_d_location.py ===================== -/

/-- Homogeneous velocity model (dataclass OneDVelocityModel). -/
structure OneDVelocityModel where
  vp : ℝ
  vs : ℝ

/-- Station with local planar coordinates in km (dataclass Station). -/
structure Station where
  code : String
  x : ℝ
  y : ℝ

/-- P and S arrival times for a station (dataclass PSObservation). -/
structure PSObservation where
  station : String
  t_p : ℝ
  t_s : ℝ

/-- Best-fit location (dataclass LocationResult). -/
structure LocationResult where
  x : ℝ
  y : ℝ
  t0 : ℝ
  rms : ℝ
  residuals : List (String × ℝ)
  used_stations : ℕ
  notes : String

/-- Lookup in the dict built by the comprehension keyed on station code;
as in a Python dict, a later station with the same code wins. -/
def lookupStation (stations : List Station) (code : String) : Option Station :=
  stations.foldl (fun acc s => if s.code = code then some s else acc) none

/-- The observations kept by the validation filter of locate_event_1d:
known station code and t_s strictly greater than t_p. -/
noncomputable def validObs (stations : List Station) (obs : List PSObservation) :
    List PSObservation :=
  obs.filter fun o => (lookupStation stations o.station).isSome && decide (o.t_p < o.t_s)

/-- Euclidean distance from a station to a grid point (np.hypot). -/
noncomputable def distTo (st : Station) (x y : ℝ) : ℝ :=
  Real.sqrt ((st.x - x) ^ 2 + (st.y - y) ^ 2)

/-- Distance from the station named by a code to a grid point; the none
case is unreachable for codes of valid observations. -/
noncomputable def stationDist (stations : List Station) (code : String) (x y : ℝ) : ℝ :=
  (lookupStation stations code).elim 0 fun st => distTo st x y

/-- Pooled origin-time candidates at a grid point: for each valid
observation, t_p - d / vp and t_s - d / vs in that order.  The source
keeps a candidate only when np.isfinite accepts it; over the reals with
finite inputs that computation is non-finite exactly when the velocity
in its denominator is zero (inf or nan from division by zero), so the
guard translates to a nonzero-velocity test. -/
noncomputable def t0CandidatesAt (stations : List Station) (model : OneDVelocityModel)
    (v : List PSObservation) (x y : ℝ) : List ℝ :=
  v.flatMap fun o =>
    let d := stationDist stations o.station x y
    (if model.vp ≠ 0 then [o.t_p - d / model.vp] else [])
      ++ (if model.vs ≠ 0 then [o.t_s - d / model.vs] else [])

/-- Per-station residuals at a grid point against the P arrivals:
t_p minus the predicted arrival t0 + d / vp. -/
noncomputable def residualsAt (stations : List Station) (model : OneDVelocityModel)
    (v : List PSObservation) (t0 x y : ℝ) : List (String × ℝ) :=
  v.map fun o => (o.station, o.t_p - (t0 + stationDist stations o.station x y / model.vp))

/-- RMS of a residual list: sqrt of the mean squared residual clamped at
zero from below (np.sqrt (np.maximum (mean, 0))). -/
noncomputable def rmsOfResiduals (rs : List (String × ℝ)) : ℝ :=
  Real.sqrt (max (meanList (rs.map fun q => q.2 ^ 2)) 0)

/-- Evaluation of one grid point in locate_event_1d: none corresponds to
the two continue branches (empty candidate pool, no residuals). -/
noncomputable def pointEval (stations : List Station) (model : OneDVelocityModel)
    (v : List PSObservation) (x y : ℝ) : Option LocationResult :=
  let cands := t0CandidatesAt stations model v x y
  if cands.length = 0 then none
  else
    let t0 := npMedian cands
    let res := residualsAt stations model v t0 x y
    if res.length = 0 then none
    else some ⟨x, y, t0, rmsOfResiduals res, res, res.length, "OK (superficial homogéneo)"⟩

/-- Total form of the per-grid-point evaluation, coinciding with
pointEval whenever the candidate pool and residual list are nonempty. -/
noncomputable def pointResultAt (stations : List Station) (model : OneDVelocityModel)
    (v : List PSObservation) (p : ℝ × ℝ) : LocationResult :=
  let t0 := npMedian (t0CandidatesAt stations model v p.1 p.2)
  let res := residualsAt stations model v t0 p.1 p.2
  ⟨p.1, p.2, t0, rmsOfResiduals res, res, res.length, "OK (superficial homogéneo)"⟩

/-- Grid points scanned by locate_event_1d, x outer and y inner, with
the half-open-plus-epsilon arange of the source. -/
noncomputable def gridPts (gridX gridY : ℝ × ℝ × ℝ) : List (ℝ × ℝ) :=
  (npArange gridX.1 (gridX.2.1 + 1e-9) gridX.2.2).flatMap fun x =>
    (npArange gridY.1 (gridY.2.1 + 1e-9) gridY.2.2).map fun y => (x, y)

/-- One step of the best-so-far selection: a candidate replaces the
best only under strict rms comparison. -/
noncomputable def bestStep (best : Option LocationResult) (cand : Option LocationResult) :
    Option LocationResult :=
  match cand with
  | none => best
  | some c =>
    match best with
    | none => some c
    | some b => if c.rms < b.rms then some c else best

/-- Grid-search location (function locate_event_1d).  Returns none when
fewer than minStations observations are supplied or survive validation. -/
noncomputable def locateEvent1d (stations : List Station) (observations : List PSObservation)
    (model : OneDVelocityModel) (gridX gridY : ℝ × ℝ × ℝ) (minStations : ℕ) :
    Option LocationResult :=
  if observations.length < minStations then none
  else
    let v := validObs stations observations
    if v.length < minStations then none
    else
      (gridPts gridX gridY).foldl
        (fun best p => bestStep best (pointEval stations model v p.1 p.2)) none

/- ===================== picking.py ===================== -/

/-- A pick suggestion returned by the STA/LTA detector. -/
structure Suggestion where
  time_rel : ℝ
  phase : String
  score : ℝ

/-- Short-window sample count: nsta = max 1 (int (sta * sr)). -/
noncomputable def nstaOf (sta sr : ℝ) : ℤ := max 1 (pyInt (sta * sr))

/-- Long-window sample count: nlta = max (nsta + 1) (int (lta * sr)). -/
noncomputable def nltaOf (sta lta sr : ℝ) : ℤ := max (nstaOf sta sr + 1) (pyInt (lta * sr))

/-- Valid-mode moving average of window w (np.convolve with ones(w)/w),
defined for w between 1 and the length of the list. -/
noncomputable def movingAverage (l : List ℝ) (w : ℕ) : List ℝ :=
  (List.range (l.length + 1 - w)).map fun i => ((l.drop i).take w).sum / w

/-- NumPy elementwise division of two 1-D arrays with broadcasting:
defined when the lengths agree or either length is 1, otherwise a
ValueError, modelled as none. -/
noncomputable def npDivide1D (a b : List ℝ) : Option (List ℝ) :=
  if a.length = b.length then some (List.zipWith (fun x y => x / y) a b)
  else if b.length = 1 then some (a.map fun x => x / b.getD 0 0)
  else if a.length = 1 then some (b.map fun y => a.getD 0 0 / y)
  else none

/-- Fallback branch of suggest_picks_sta_lta, taken when the ObsPy
trigger primitives are unavailable: rolling-RMS ratio thresholding.
The result is none when the NumPy pipeline raises. -/
noncomputable def suggestPicksStaLtaFallback (data : List ℝ) (sr sta lta onThr offThr : ℝ)
    (maxSuggestions : ℕ) : Option (List Suggestion) :=
  if data.length = 0 then some []
  else
    let nsta := (nstaOf sta sr).toNat
    let nlta := (nltaOf sta lta sr).toNat
    if data.length < nlta then some []
    else
      let sq := data.map fun v => v ^ 2
      let short := (movingAverage sq nsta).map fun v => Real.sqrt (max v 0)
      let long := (movingAverage sq nlta).map fun v => Real.sqrt (max v 0)
      let long2 := long.drop (long.length - short.length)
      match npDivide1D short (long2.map fun v => v + 1e-9) with
      | none => none
      | some ratio =>
        let indices := (List.range ratio.length).filter fun i => decide (onThr < ratio.getD i 0)
        let times := indices.map fun i => (i : ℝ) / sr
        some ((List.zip (times.take maxSuggestions)
          ((indices.map fun i => ratio.getD i 0).take maxSuggestions)).map
            fun q => ⟨q.1, "P?", q.2⟩)

/- ===================== helper lemmas ===================== -/

lemma computeMl_eq_some {a d m : ℝ} (h : computeMlHuttonBoore a d = some m) :
    m = Real.logb 10 a - log10A0HuttonBoore d := by
  unfold computeMlHuttonBoore at h
  split at h
  · exact absurd h (by simp)
  · injection h with h
    exact h.symm

lemma waCore_fields (env : ObsPyEnv) (pPick : PickD) (delta distance sr : ℝ)
    (data : List ℝ) (ip stats : Option String) (nw ch st : String) :
    (waCore env pPick delta distance sr data ip stats nw ch st).method = "wood_anderson_inst" ∧
    (waCore env pPick delta distance sr data ip stats nw ch st).delta_ps = some delta ∧
    (waCore env pPick delta distance sr data ip stats nw ch st).distance_km = some distance := by
  simp only [waCore]
  repeat' split
  all_goals exact ⟨rfl, rfl, rfl⟩

lemma waCore_ml_formula (env : ObsPyEnv) (pPick : PickD) (delta distance sr : ℝ)
    (data : List ℝ) (ip stats : Option String) (nw ch st : String) :
    ∀ m : ℝ, (waCore env pPick delta distance sr data ip stats nw ch st).ml = some m →
      ∃ a : ℝ,
        (waCore env pPick delta distance sr data ip stats nw ch st).amplitude_mm = some a ∧
        m = Real.logb 10 a - log10A0HuttonBoore distance := by
  simp only [waCore]
  repeat' split
  all_goals intro m h
  all_goals try exact Option.noConfusion h
  all_goals injection h with h
  all_goals exact ⟨_, rfl, h ▸ computeMl_eq_some (by assumption)⟩

lemma estimate_method (env : ObsPyEnv) (picks : List PickD) (data : List ℝ) (sr : ℝ)
    (st : String) (ip stats : Option String) (nw ch : String) :
    (estimateLocalMagnitudeWaWithResponse env picks data sr st ip stats nw ch).method
      = "wood_anderson_inst" := by
  simp only [estimateLocalMagnitudeWaWithResponse]
  split
  · split
    · rfl
    · split
      · rfl
      · exact (waCore_fields _ _ _ _ _ _ _ _ _ _ _).1
  · rfl

/- ===================== claim theorems ===================== -/

/-- C1: the magnitude estimator computes ml as log10 of the peak minus
the piecewise Hutton-Boore log10 A0 of the distance (0.018 R + 2.17 for
R at most 60 km, 0.0038 R + 3.02 beyond), every numeric ml produced by
the estimator has that form, and for peak 1.0 mm at 10 km the value is
exactly -2.35, within tolerance 1e-9. -/
theorem c1_hutton_boore_formula :
    (∀ d : ℝ, (d ≤ 60 → log10A0HuttonBoore d = 0.018 * d + 2.17) ∧
      (¬d ≤ 60 → log10A0HuttonBoore d = 0.0038 * d + 3.02)) ∧
    (∀ a d : ℝ, 0 < a → 0 < d →
      computeMlHuttonBoore a d = some (Real.logb 10 a - log10A0HuttonBoore d)) ∧
    (∀ (env : ObsPyEnv) (picks : List PickD) (data : List ℝ) (sr : ℝ) (st : String)
      (ip stats : Option String) (nw ch : String) (m : ℝ),
      (estimateLocalMagnitudeWaWithResponse env picks data sr st ip stats nw ch).ml = some m →
      ∃ a d : ℝ,
        (estimateLocalMagnitudeWaWithResponse env picks data sr st ip stats nw ch).amplitude_mm
          = some a ∧
        (estimateLocalMagnitudeWaWithResponse env picks data sr st ip stats nw ch).distance_km
          = some d ∧
        m = Real.logb 10 a - log10A0HuttonBoore d) ∧
    computeMlHuttonBoore 1.0 10 = some (-2.35) ∧
    |(-2.35 : ℝ) - -2.35| ≤ 1e-9 := by
  refine ⟨?_, ?_, ?_, ?_, by norm_num⟩
  · intro d
    unfold log10A0HuttonBoore
    rw [show (60.0 : ℝ) = 60 from by norm_num]
    exact ⟨fun h => if_pos h, fun h => if_neg h⟩
  · intro a d ha hd
    unfold computeMlHuttonBoore
    rw [if_neg]
    push_neg
    exact ⟨ha, hd⟩
  · intro env picks data sr st ip stats nw ch m
    simp only [estimateLocalMagnitudeWaWithResponse]
    split
    · split
      · intro h
        exact absurd h (by simp)
      · split
        · intro h
          exact absurd h (by simp)
        · intro h
          obtain ⟨a, ha, hm⟩ := waCore_ml_formula _ _ _ _ _ _ _ _ _ _ _ m h
          exact ⟨a, _, ha, (waCore_fields _ _ _ _ _ _ _ _ _ _ _).2.2, hm⟩
    · intro h
      exact absurd h (by simp)
  · unfold computeMlHuttonBoore log10A0HuttonBoore
    rw [if_neg (by norm_num), if_pos (by norm_num)]
    rw [show ((1.0 : ℝ) = 1) by norm_num, Real.logb_one]
    norm_num

/-- Witness for C1: the general formula conjunct applied at amplitude 2
and distance 100. -/
theorem c1_hutton_boore_formula_witness :
    computeMlHuttonBoore 2 100 = some (Real.logb 10 2 - log10A0HuttonBoore 100) :=
  c1_hutton_boore_formula.2.1 2 100 (by norm_num) (by norm_num)

/-- C4: the estimated distance is exactly delta_ps times 8.4 km, with
2.0 mapping to 16.8, and every result of the estimator on a valid pick
pair carries exactly that distance. -/
theorem c4_distance_formula :
    (∀ deltaPs : ℝ, estimateDistanceFromPs deltaPs = deltaPs * 8.4) ∧
    estimateDistanceFromPs 2.0 = 16.8 ∧
    (∀ (env : ObsPyEnv) (picks : List PickD) (data : List ℝ) (sr : ℝ) (st : String)
      (ip stats : Option String) (nw ch : String) (pP sP : PickD),
      findStationPhase picks st "P" = some pP →
      findStationPhase picks st "S" = some sP →
      pP.time_rel < sP.time_rel →
      (estimateLocalMagnitudeWaWithResponse env picks data sr st ip stats nw ch).delta_ps
        = some (sP.time_rel - pP.time_rel) ∧
      (estimateLocalMagnitudeWaWithResponse env picks data sr st ip stats nw ch).distance_km
        = some ((sP.time_rel - pP.time_rel) * 8.4)) := by
  refine ⟨fun d => rfl, by norm_num [estimateDistanceFromPs], ?_⟩
  intro env picks data sr st ip stats nw ch pP sP hP hS hlt
  simp only [estimateLocalMagnitudeWaWithResponse, hP, hS]
  rw [if_neg (by linarith)]
  by_cases hb : sr ≤ 0 ∨ data.length < 10
  · rw [if_pos hb]
    exact ⟨rfl, rfl⟩
  · rw [if_neg hb]
    exact ⟨(waCore_fields _ _ _ _ _ _ _ _ _ _ _).2.1,
      (waCore_fields _ _ _ _ _ _ _ _ _ _ _).2.2⟩

/-- Witness for C4: concrete valid pick pair with delta 2.0 at sampling
rate 0, exercising the third conjunct. -/
theorem c4_distance_formula_witness :
    (estimateLocalMagnitudeWaWithResponse ⟨fun d _ _ _ => d, false, fun d _ _ _ _ _ => (d, [])⟩
      [⟨"ST", "P", 1.0⟩, ⟨"ST", "S", 3.0⟩] [] 0 "ST" none none "XX" "CH").distance_km
      = some ((3.0 - 1.0) * 8.4) :=
  (c4_distance_formula.2.2 ⟨fun d _ _ _ => d, false, fun d _ _ _ _ _ => (d, [])⟩
    [⟨"ST", "P", 1.0⟩, ⟨"ST", "S", 3.0⟩] [] 0 "ST" none none "XX" "CH"
    ⟨"ST", "P", 1.0⟩ ⟨"ST", "S", 3.0⟩ rfl rfl (by norm_num)).2

/-- C10: with a valid pick pair but a non-positive sampling rate or
fewer than 10 samples, the estimator returns the structured
Datos-insuficientes result (null ml, explanatory note, warning), and
does not raise. -/
theorem c10_insufficient_data (env : ObsPyEnv) (picks : List PickD) (data : List ℝ)
    (sr : ℝ) (st : String) (ip stats : Option String) (nw ch : String) (pP sP : PickD)
    (hP : findStationPhase picks st "P" = some pP)
    (hS : findStationPhase picks st "S" = some sP)
    (hlt : pP.time_rel < sP.time_rel)
    (hbad : sr ≤ 0 ∨ data.length < 10) :
    estimateLocalMagnitudeWaWithResponse env picks data sr st ip stats nw ch =
      ⟨none, none, some (sP.time_rel - pP.time_rel),
        some ((sP.time_rel - pP.time_rel) * 8.4), "Datos insuficientes",
        "wood_anderson_inst", ["Datos insuficientes"], false, none, none⟩ := by
  simp only [estimateLocalMagnitudeWaWithResponse, hP, hS]
  rw [if_neg (by linarith), if_pos hbad]
  rfl

/-- Witness for C10: a three-sample trace with a valid pick pair. -/
theorem c10_insufficient_data_witness :
    estimateLocalMagnitudeWaWithResponse ⟨fun d _ _ _ => d, false, fun d _ _ _ _ _ => (d, [])⟩
      [⟨"ST", "P", 1.0⟩, ⟨"ST", "S", 2.0⟩] [1, 2, 3] 100 "ST" none none "XX" "CH" =
      ⟨none, none, some ((2.0 : ℝ) - 1.0), some (((2.0 : ℝ) - 1.0) * 8.4),
        "Datos insuficientes", "wood_anderson_inst", ["Datos insuficientes"],
        false, none, none⟩ :=
  c10_insufficient_data ⟨fun d _ _ _ => d, false, fun d _ _ _ _ _ => (d, [])⟩
    [⟨"ST", "P", 1.0⟩, ⟨"ST", "S", 2.0⟩] [1, 2, 3] 100 "ST" none none "XX" "CH"
    ⟨"ST", "P", 1.0⟩ ⟨"ST", "S", 2.0⟩ rfl rfl (by norm_num) (Or.inr (by norm_num))

/-- C9: the basic Wood-Anderson estimator is definitionally the
with-response variant called with no inventory path and no trace
metadata, and its result always carries the method tag
wood_anderson_inst, never wood_anderson. -/
theorem c9_wa_refines_with_response :
    (∀ (env : ObsPyEnv) (picks : List PickD) (data : List ℝ) (sr : ℝ) (st : String),
      estimateLocalMagnitudeWa env picks data sr st =
        estimateLocalMagnitudeWaWithResponse env picks data sr st none none "XX" "CH") ∧
    (∀ (env : ObsPyEnv) (picks : List PickD) (data : List ℝ) (sr : ℝ) (st : String),
      (estimateLocalMagnitudeWa env picks data sr st).method = "wood_anderson_inst" ∧
      (estimateLocalMagnitudeWa env picks data sr st).method ≠ "wood_anderson") := by
  refine ⟨fun env picks data sr st => rfl, fun env picks data sr st => ?_⟩
  have h := estimate_method env picks data sr st none none "XX" "CH"
  refine ⟨h, ?_⟩
  rw [show estimateLocalMagnitudeWa env picks data sr st =
    estimateLocalMagnitudeWaWithResponse env picks data sr st none none "XX" "CH" from rfl, h]
  decide

/-- C3: a pick pair with t_s at or before t_p makes both Wood-Anderson
magnitude estimators return a null-ml structured result with a non-empty
note and a non-empty warning list (never a numeric magnitude), and makes
the epicenter locator discard the pair: such an observation never
survives validation, and the location outcome is the same as if the
input had been pre-filtered to the valid observations only. -/
theorem c3_ps_invalid_pair :
    (∀ (env : ObsPyEnv) (picks : List PickD) (data : List ℝ) (sr : ℝ) (st : String)
      (ip stats : Option String) (nw ch : String) (pP sP : PickD),
      findStationPhase picks st "P" = some pP →
      findStationPhase picks st "S" = some sP →
      sP.time_rel ≤ pP.time_rel →
      (estimateLocalMagnitudeWaWithResponse env picks data sr st ip stats nw ch).ml = none ∧
      (estimateLocalMagnitudeWaWithResponse env picks data sr st ip stats nw ch).notes ≠ "" ∧
      (estimateLocalMagnitudeWaWithResponse env picks data sr st ip stats nw ch).warnings ≠ []) ∧
    (∀ (env : ObsPyEnv) (picks : List PickD) (data : List ℝ) (sr : ℝ) (st : String)
      (pP sP : PickD),
      findStationPhase picks st "P" = some pP →
      findStationPhase picks st "S" = some sP →
      sP.time_rel ≤ pP.time_rel →
      (estimateLocalMagnitudeWa env picks data sr st).ml = none ∧
      (estimateLocalMagnitudeWa env picks data sr st).notes ≠ "" ∧
      (estimateLocalMagnitudeWa env picks data sr st).warnings ≠ []) ∧
    (∀ (stations : List Station) (obs : List PSObservation) (o : PSObservation),
      o.t_s ≤ o.t_p → o ∉ validObs stations obs) ∧
    (∀ (stations : List Station) (obs : List PSObservation) (model : OneDVelocityModel)
      (gridX gridY : ℝ × ℝ × ℝ) (minStations : ℕ),
      locateEvent1d stations obs model gridX gridY minStations =
        locateEvent1d stations (validObs stations obs) model gridX gridY minStations) := by
  have hmain : ∀ (env : ObsPyEnv) (picks : List PickD) (data : List ℝ) (sr : ℝ) (st : String)
      (ip stats : Option String) (nw ch : String) (pP sP : PickD),
      findStationPhase picks st "P" = some pP →
      findStationPhase picks st "S" = some sP →
      sP.time_rel ≤ pP.time_rel →
      (estimateLocalMagnitudeWaWithResponse env picks data sr st ip stats nw ch).ml = none ∧
      (estimateLocalMagnitudeWaWithResponse env picks data sr st ip stats nw ch).notes ≠ "" ∧
      (estimateLocalMagnitudeWaWithResponse env picks data sr st ip stats nw ch).warnings
        ≠ [] := by
    intro env picks data sr st ip stats nw ch pP sP hP hS hle
    simp only [estimateLocalMagnitudeWaWithResponse, hP, hS]
    rw [if_pos (by linarith : sP.time_rel - pP.time_rel ≤ 0)]
    refine ⟨rfl, by decide, by decide⟩
  refine ⟨hmain, ?_, ?_, ?_⟩
  · intro env picks data sr st pP sP hP hS hle
    exact hmain env picks data sr st none none "XX" "CH" pP sP hP hS hle
  · intro stations obs o hts hmem
    rw [validObs, List.mem_filter] at hmem
    have h2 := hmem.2
    simp only [Bool.and_eq_true, decide_eq_true_eq] at h2
    linarith [h2.2]
  · intro stations obs model gX gY ms
    have hidem : validObs stations (validObs stations obs) = validObs stations obs := by
      simp [validObs, List.filter_filter]
    have hle : (validObs stations obs).length ≤ obs.length := List.length_filter_le _ _
    simp only [locateEvent1d]
    rw [hidem]
    split_ifs <;> first | rfl | omega

/-- Witness for C3: a concrete station with its S pick before its P
pick yields a null magnitude, and a concrete inverted observation is
rejected by the locator validation. -/
theorem c3_ps_invalid_pair_witness :
    (estimateLocalMagnitudeWaWithResponse ⟨fun d _ _ _ => d, false, fun d _ _ _ _ _ => (d, [])⟩
      [⟨"ST", "P", 2.0⟩, ⟨"ST", "S", 1.0⟩] [] 100 "ST" none none "XX" "CH").ml = none ∧
    (⟨"B", 3.0, 1.0⟩ : PSObservation) ∉ validObs [⟨"B", 0, 0⟩] [⟨"B", 3.0, 1.0⟩] :=
  ⟨(c3_ps_invalid_pair.1 ⟨fun d _ _ _ => d, false, fun d _ _ _ _ _ => (d, [])⟩
      [⟨"ST", "P", 2.0⟩, ⟨"ST", "S", 1.0⟩] [] 100 "ST" none none "XX" "CH"
      ⟨"ST", "P", 2.0⟩ ⟨"ST", "S", 1.0⟩ rfl rfl (by norm_num)).1,
    c3_ps_invalid_pair.2.2.1 [⟨"B", 0, 0⟩] [⟨"B", 3.0, 1.0⟩] ⟨"B", 3.0, 1.0⟩ (by norm_num)⟩

/-- C5: whenever fewer than minStations observations survive the
validation filter (unknown station or t_s at or before t_p), the
locator returns none, whatever the grid specification. -/
theorem c5_insufficient_stations (stations : List Station) (obs : List PSObservation)
    (model : OneDVelocityModel) (gridX gridY : ℝ × ℝ × ℝ) (minStations : ℕ)
    (h : (validObs stations obs).length < minStations) :
    locateEvent1d stations obs model gridX gridY minStations = none := by
  simp only [locateEvent1d]
  split_ifs <;> first | rfl | omega

/-- Witness for C5: a single valid observation with the default
minimum of two stations returns none. -/
theorem c5_insufficient_stations_witness :
    locateEvent1d [⟨"A", 0, 0⟩] [⟨"A", 1.0, 2.0⟩] ⟨6.0, 3.5⟩ (-50, 50, 2.0) (-50, 50, 2.0) 2
      = none :=
  c5_insufficient_stations [⟨"A", 0, 0⟩] [⟨"A", 1.0, 2.0⟩] ⟨6.0, 3.5⟩
    (-50, 50, 2.0) (-50, 50, 2.0) 2
    (lt_of_le_of_lt (List.length_filter_le _ _) (by norm_num))

/- ===================== warning and length lemmas ===================== -/

lemma length_npCumsum (l : List ℝ) : (npCumsum l).length = l.length := by
  simp [npCumsum]

lemma length_integrateTrapezoid (data : List ℝ) (sr : ℝ) :
    (integrateTrapezoid data sr).length = data.length - 1 := by
  unfold integrateTrapezoid
  split
  · omega
  · rw [List.length_map, length_npCumsum, List.length_zipWith, List.length_tail]
    exact min_eq_right (Nat.sub_le _ _)

lemma length_preprocessArray (data : List ℝ) :
    (preprocessArray data).length = data.length := by
  unfold preprocessArray
  split
  · rfl
  · simp only [List.length_zipWith, List.length_map, List.length_range]
    omega

lemma clampedFmax_warn_mem (sr : ℝ) :
    "fmax recortado a Nyquist*0.45" ∈ (clampedFmax sr).2 ↔ sr * 0.5 < DEFAULT_BAND.2 := by
  unfold clampedFmax
  split_ifs with h
  · simpa using h
  · simpa using h

lemma displacementMm_warn (u : String) (d : List ℝ) (sr : ℝ) :
    (displacementMm u d sr).2 = [] ∨
    (displacementMm u d sr).2 = ["Unidades desconocidas - asumiendo cm/s²"] := by
  unfold displacementMm
  split_ifs <;> simp

lemma fmax_not_in_unit_warnings (stats : Option String) :
    "fmax recortado a Nyquist*0.45" ∉ (detectUnitsFromTraceStats stats).2 ∧
    "fmax clipped to Nyquist*0.45" ∉ (detectUnitsFromTraceStats stats).2 := by
  cases stats with
  | none => exact ⟨by decide, by decide⟩
  | some ch =>
    simp only [detectUnitsFromTraceStats]
    split_ifs with h1 h2 h3
    · exact ⟨by decide, by decide⟩
    · exact ⟨by decide, by decide⟩
    · exact ⟨by decide, by decide⟩
    · constructor <;>
      · intro hmem
        rw [List.mem_singleton] at hmem
        have hl := congrArg String.length hmem.symm
        rw [String.length_append, String.length_append] at hl
        have e1 : ("Canal desconocido (" : String).length = 19 := by decide
        have e2 : (") - asumiendo cm/s²" : String).length = 19 := by decide
        have e3 : ("fmax recortado a Nyquist*0.45" : String).length = 29 := by decide
        have e4 : ("fmax clipped to Nyquist*0.45" : String).length = 28 := by decide
        omega

lemma inventoryStage_no_inventory (env : ObsPyEnv) (data : List ℝ) (sr : ℝ)
    (ip : Option String) (st ch nw : String) (hip : pyTruthyStr ip = false) :
    inventoryStage env data sr ip st ch nw =
      (data, ["Sin inventario - procesamientos heurísticos"], false, "Desconocido") := by
  simp [inventoryStage, hip]

lemma waCore_warnings_decomp (env : ObsPyEnv) (pPick : PickD) (delta distance sr : ℝ)
    (data : List ℝ) (ip stats : Option String) (nw ch st : String)
    (hip : pyTruthyStr ip = false) :
    ∃ t : List String,
      (waCore env pPick delta distance sr data ip stats nw ch st).warnings
        = (detectUnitsFromTraceStats stats).2 ++ ["Sin inventario - procesamientos heurísticos"]
            ++ (clampedFmax sr).2
            ++ (displacementMm (detectUnitsFromTraceStats stats).1
                 (env.bandpassImpl (preprocessArray data) sr DEFAULT_BAND.1 (clampedFmax sr).1)
                 sr).2
            ++ t ∧
      t ∈ [["Vector vacio"], ["Ventana vacia"], ["Pico=0"], ["Error computo ML"],
           ["⚠️ IMPORTANTE: Respuesta instrumental no removida",
            "📍 Distancia estimada de P-S (una estación)",
            "🔬 Magnitud preliminar - requiere calibración regional"]] := by
  simp only [waCore, inventoryStage_no_inventory env data sr ip st ch nw hip]
  repeat' split
  all_goals first
    | ((refine ⟨["Vector vacio"], ?_, ?_⟩ <;> simp) <;> done)
    | ((refine ⟨["Ventana vacia"], ?_, ?_⟩ <;> simp) <;> done)
    | ((refine ⟨["Pico=0"], ?_, ?_⟩ <;> simp) <;> done)
    | ((refine ⟨["Error computo ML"], ?_, ?_⟩ <;> simp) <;> done)
    | ((refine ⟨["⚠️ IMPORTANTE: Respuesta instrumental no removida",
                "📍 Distancia estimada de P-S (una estación)",
                "🔬 Magnitud preliminar - requiere calibración regional"], ?_, ?_⟩ <;> simp) <;>
        done)
    | exact absurd (show false = true by assumption) (by decide)

lemma waCore_fmax_warning (env : ObsPyEnv) (pPick : PickD) (delta distance sr : ℝ)
    (data : List ℝ) (ip stats : Option String) (nw ch st : String)
    (hip : pyTruthyStr ip = false) :
    ("fmax recortado a Nyquist*0.45"
        ∈ (waCore env pPick delta distance sr data ip stats nw ch st).warnings
      ↔ sr * 0.5 < DEFAULT_BAND.2) ∧
    "fmax clipped to Nyquist*0.45"
      ∉ (waCore env pPick delta distance sr data ip stats nw ch st).warnings := by
  obtain ⟨t, hw, ht⟩ := waCore_warnings_decomp env pPick delta distance sr data ip stats nw ch st hip
  have hud := fmax_not_in_unit_warnings stats
  have hdm := displacementMm_warn (detectUnitsFromTraceStats stats).1
    (env.bandpassImpl (preprocessArray data) sr DEFAULT_BAND.1 (clampedFmax sr).1) sr
  have htcases : t = ["Vector vacio"] ∨ t = ["Ventana vacia"] ∨ t = ["Pico=0"] ∨
      t = ["Error computo ML"] ∨
      t = ["⚠️ IMPORTANTE: Respuesta instrumental no removida",
           "📍 Distancia estimada de P-S (una estación)",
           "🔬 Magnitud preliminar - requiere calibración regional"] := by
    simpa using ht
  have hmagic_t : "fmax recortado a Nyquist*0.45" ∉ t := by
    rcases htcases with h | h | h | h | h <;> rw [h] <;> decide
  have heng_t : "fmax clipped to Nyquist*0.45" ∉ t := by
    rcases htcases with h | h | h | h | h <;> rw [h] <;> decide
  have hmagic_dm : "fmax recortado a Nyquist*0.45"
      ∉ (displacementMm (detectUnitsFromTraceStats stats).1
          (env.bandpassImpl (preprocessArray data) sr DEFAULT_BAND.1 (clampedFmax sr).1) sr).2 := by
    rcases hdm with h | h <;> rw [h] <;> decide
  have heng_dm : "fmax clipped to Nyquist*0.45"
      ∉ (displacementMm (detectUnitsFromTraceStats stats).1
          (env.bandpassImpl (preprocessArray data) sr DEFAULT_BAND.1 (clampedFmax sr).1) sr).2 := by
    rcases hdm with h | h <;> rw [h] <;> decide
  have heng_cf : "fmax clipped to Nyquist*0.45" ∉ (clampedFmax sr).2 := by
    unfold clampedFmax
    split_ifs <;> simp
  rw [hw]
  constructor
  · constructor
    · intro hm
      rcases List.mem_append.mp hm with hm | hm
      · rcases List.mem_append.mp hm with hm | hm
        · rcases List.mem_append.mp hm with hm | hm
          · rcases List.mem_append.mp hm with hm | hm
            · exact absurd hm hud.1
            · exact absurd hm (by decide)
          · exact (clampedFmax_warn_mem sr).mp hm
        · exact absurd hm hmagic_dm
      · exact absurd hm hmagic_t
    · intro hc
      exact List.mem_append.mpr (Or.inl (List.mem_append.mpr (Or.inl
        (List.mem_append.mpr (Or.inr ((clampedFmax_warn_mem sr).mpr hc))))))
  · intro hm
    rcases List.mem_append.mp hm with hm | hm
    · rcases List.mem_append.mp hm with hm | hm
      · rcases List.mem_append.mp hm with hm | hm
        · rcases List.mem_append.mp hm with hm | hm
          · exact absurd hm hud.2
          · exact absurd hm (by decide)
        · exact absurd hm heng_cf
      · exact absurd hm heng_dm
    · exact absurd hm heng_t

/-- C7 counterexample: a concrete input whose upper cutoff (20 Hz)
exceeds 0.45 times the Nyquist frequency of its 50 Hz sampling rate,
for which the estimator neither emits the claimed English warning
string nor its Spanish counterpart: the source clamps only when the
Nyquist frequency itself is below the cutoff. -/
theorem c7_fmax_claim_false :
    0.45 * ((50 : ℝ) * 0.5) < DEFAULT_BAND.2 ∧
    "fmax clipped to Nyquist*0.45" ∉
      (estimateLocalMagnitudeWaWithResponse
        ⟨fun d _ _ _ => d, false, fun d _ _ _ _ _ => (d, [])⟩
        [⟨"ST", "P", 1.0⟩, ⟨"ST", "S", 1.4⟩] (List.replicate 10 0) 50 "ST"
        none none "XX" "CH").warnings ∧
    "fmax recortado a Nyquist*0.45" ∉
      (estimateLocalMagnitudeWaWithResponse
        ⟨fun d _ _ _ => d, false, fun d _ _ _ _ _ => (d, [])⟩
        [⟨"ST", "P", 1.0⟩, ⟨"ST", "S", 1.4⟩] (List.replicate 10 0) 50 "ST"
        none none "XX" "CH").warnings := by
  have hP : findStationPhase [⟨"ST", "P", 1.0⟩, ⟨"ST", "S", 1.4⟩] "ST" "P"
      = some ⟨"ST", "P", 1.0⟩ := rfl
  have hS : findStationPhase [⟨"ST", "P", 1.0⟩, ⟨"ST", "S", 1.4⟩] "ST" "S"
      = some ⟨"ST", "S", 1.4⟩ := rfl
  have hred : estimateLocalMagnitudeWaWithResponse
      ⟨fun d _ _ _ => d, false, fun d _ _ _ _ _ => (d, [])⟩
      [⟨"ST", "P", 1.0⟩, ⟨"ST", "S", 1.4⟩] (List.replicate 10 0) 50 "ST"
      none none "XX" "CH"
      = waCore ⟨fun d _ _ _ => d, false, fun d _ _ _ _ _ => (d, [])⟩ ⟨"ST", "P", 1.0⟩
        ((1.4 : ℝ) - 1.0) (estimateDistanceFromPs ((1.4 : ℝ) - 1.0)) 50
        (List.replicate 10 0) none none "XX" "CH" "ST" := by
    simp only [estimateLocalMagnitudeWaWithResponse, hP, hS]
    rw [if_neg (by norm_num : ¬((1.4 : ℝ) - 1.0 ≤ 0)),
      if_neg (by simp : ¬((50 : ℝ) ≤ 0 ∨ (List.replicate 10 (0 : ℝ)).length < 10))]
  have h := waCore_fmax_warning ⟨fun d _ _ _ => d, false, fun d _ _ _ _ _ => (d, [])⟩
    ⟨"ST", "P", 1.0⟩ ((1.4 : ℝ) - 1.0) (estimateDistanceFromPs ((1.4 : ℝ) - 1.0)) 50
    (List.replicate 10 0) none none "XX" "CH" "ST" rfl
  refine ⟨by norm_num [DEFAULT_BAND], ?_, ?_⟩
  · rw [hred]
    exact h.2
  · rw [hred]
    intro hm
    exact absurd (h.1.mp hm) (by norm_num [DEFAULT_BAND])

/-- C7 amended: the cutoff is clamped to 0.45 times the sampling rate,
with the Spanish warning string, exactly when the Nyquist frequency
sr/2 lies strictly below the default 20 Hz cutoff; on every run of the
estimator that passes the input guards and carries no inventory, that
warning appears in the result warnings exactly under this condition,
and the English string of the claim never appears. -/
theorem c7_fmax_clamp_amended :
    (∀ sr : ℝ,
      (sr * 0.5 < DEFAULT_BAND.2 →
        clampedFmax sr = (sr * 0.45, ["fmax recortado a Nyquist*0.45"])) ∧
      (DEFAULT_BAND.2 ≤ sr * 0.5 → clampedFmax sr = (DEFAULT_BAND.2, []))) ∧
    (∀ (env : ObsPyEnv) (picks : List PickD) (data : List ℝ) (sr : ℝ) (st : String)
      (ip stats : Option String) (nw ch : String) (pP sP : PickD),
      findStationPhase picks st "P" = some pP →
      findStationPhase picks st "S" = some sP →
      pP.time_rel < sP.time_rel →
      0 < sr → 10 ≤ data.length →
      pyTruthyStr ip = false →
      (("fmax recortado a Nyquist*0.45"
          ∈ (estimateLocalMagnitudeWaWithResponse env picks data sr st ip stats nw ch).warnings)
        ↔ sr * 0.5 < DEFAULT_BAND.2) ∧
      "fmax clipped to Nyquist*0.45"
        ∉ (estimateLocalMagnitudeWaWithResponse env picks data sr st ip stats nw ch).warnings)
    := by
  constructor
  · intro sr
    unfold clampedFmax
    constructor
    · intro h
      rw [if_pos h]
    · intro h
      rw [if_neg (not_lt.mpr h)]
  · intro env picks data sr st ip stats nw ch pP sP hP hS hlt hsr hlen hip
    have hred : estimateLocalMagnitudeWaWithResponse env picks data sr st ip stats nw ch
        = waCore env pP (sP.time_rel - pP.time_rel)
          (estimateDistanceFromPs (sP.time_rel - pP.time_rel)) sr data ip stats nw ch st := by
      simp only [estimateLocalMagnitudeWaWithResponse, hP, hS]
      rw [if_neg (by linarith), if_neg (by push_neg; exact ⟨by linarith, by omega⟩)]
    rw [hred]
    exact waCore_fmax_warning env pP _ _ sr data ip stats nw ch st hip

/-- Witness for C7 amended: the membership equivalence at the concrete
50 Hz input (where no clamping happens). -/
theorem c7_fmax_clamp_amended_witness :
    ("fmax recortado a Nyquist*0.45"
        ∈ (estimateLocalMagnitudeWaWithResponse
            ⟨fun d _ _ _ => d, false, fun d _ _ _ _ _ => (d, [])⟩
            [⟨"ST", "P", 1.0⟩, ⟨"ST", "S", 1.4⟩] (List.replicate 10 0) 50 "ST"
            none none "XX" "CH").warnings)
      ↔ (50 : ℝ) * 0.5 < DEFAULT_BAND.2 :=
  (c7_fmax_clamp_amended.2 ⟨fun d _ _ _ => d, false, fun d _ _ _ _ _ => (d, [])⟩
    [⟨"ST", "P", 1.0⟩, ⟨"ST", "S", 1.4⟩] (List.replicate 10 0) 50 "ST" none none "XX" "CH"
    ⟨"ST", "P", 1.0⟩ ⟨"ST", "S", 1.4⟩ rfl rfl (by norm_num) (by norm_num) (by simp) rfl).1

lemma length_movingAverage (l : List ℝ) (w : ℕ) :
    (movingAverage l w).length = l.length + 1 - w := by
  simp [movingAverage]

/-- C8 counterexample: at sta = 1.9 s and fs = 1 Hz the detector sets
n_sta to 1, while the claimed formula max 1 (round (sta * fs)) gives 2:
the source truncates with int(), it does not round. -/
theorem c8_round_claim_false :
    nstaOf 1.9 1 = 1 ∧ max 1 (round ((1.9 : ℝ) * 1)) = 2 ∧
    nstaOf 1.9 1 ≠ max 1 (round ((1.9 : ℝ) * 1)) := by
  have h1 : nstaOf 1.9 1 = 1 := by
    unfold nstaOf pyInt
    rw [if_pos (by norm_num : (0 : ℝ) ≤ 1.9 * 1)]
    norm_num
  have h2 : round ((1.9 : ℝ) * 1) = 2 := by
    norm_num [round_eq]
  refine ⟨h1, by rw [h2]; decide, ?_⟩
  rw [h1, h2]
  decide

/-- C8 amended: the detector converts the windows with truncation
toward zero (Python int), n_sta = max 1 (int (sta fs)) and
n_lta = max (n_sta + 1) (int (lta fs)); in particular
n_lta > n_sta >= 1 always holds. -/
theorem c8_window_counts_amended :
    (∀ sta sr : ℝ, nstaOf sta sr = max 1 (pyInt (sta * sr))) ∧
    (∀ sta lta sr : ℝ, nltaOf sta lta sr = max (nstaOf sta sr + 1) (pyInt (lta * sr))) ∧
    (∀ sta sr : ℝ, 1 ≤ nstaOf sta sr) ∧
    (∀ sta lta sr : ℝ, nstaOf sta sr < nltaOf sta lta sr) := by
  refine ⟨fun _ _ => rfl, fun _ _ _ => rfl, fun sta sr => le_max_left _ _,
    fun sta lta sr => lt_of_lt_of_le (lt_add_one _) (le_max_left _ _)⟩

/-- C6: in the in-repository fallback branch of the pick detector
(taken when the ObsPy trigger primitives are absent), any trace strictly
longer than the long window makes the short and trimmed long arrays have
incompatible lengths, so the NumPy elementwise division raises a
broadcasting ValueError (modelled as none) instead of returning a
bounded suggestion list: with fs = 1 Hz, sta = 1 s, lta = 2 s (n_sta = 1,
n_lta = 2) and four samples, the arrays have lengths 4 and 3. -/
theorem c6_fallback_detector_crash :
    suggestPicksStaLtaFallback [1, 1, 1, 1] 1 1 2 2.5 1.0 3 = none := by
  have hnsta : nstaOf 1 1 = 1 := by
    unfold nstaOf pyInt
    rw [if_pos (by norm_num : (0 : ℝ) ≤ 1 * 1)]
    norm_num
  have hnlta : nltaOf 1 2 1 = 2 := by
    unfold nltaOf pyInt
    rw [hnsta, if_pos (by norm_num : (0 : ℝ) ≤ 2 * 1)]
    norm_num
  simp only [suggestPicksStaLtaFallback, hnsta, hnlta, npDivide1D, List.length_map,
    length_movingAverage, List.length_drop, List.length_cons, List.length_nil,
    show Int.toNat 2 = 2 from rfl]
  norm_num

/- ===================== grid search lemmas ===================== -/

lemma meanSq_nonneg (rs : List (String × ℝ)) :
    0 ≤ meanList (rs.map fun q => q.2 ^ 2) := by
  unfold meanList
  apply div_nonneg
  · apply List.sum_nonneg
    intro x hx
    obtain ⟨q, _, rfl⟩ := List.mem_map.mp hx
    positivity
  · positivity

lemma rmsOfResiduals_eq_sqrt_mean (rs : List (String × ℝ)) :
    rmsOfResiduals rs = Real.sqrt (meanList (rs.map fun q => q.2 ^ 2)) := by
  unfold rmsOfResiduals
  rw [max_eq_left (meanSq_nonneg rs)]

lemma t0CandidatesAt_ne_nil (stations : List Station) (model : OneDVelocityModel)
    (v : List PSObservation) (x y : ℝ) (hvp : model.vp ≠ 0) (hv : v ≠ []) :
    t0CandidatesAt stations model v x y ≠ [] := by
  match v with
  | [] => exact absurd rfl hv
  | o :: t => simp [t0CandidatesAt, hvp]

lemma pointEval_eq (stations : List Station) (model : OneDVelocityModel)
    (v : List PSObservation) (x y : ℝ) (hvp : model.vp ≠ 0) (hv : v ≠ []) :
    pointEval stations model v x y = some (pointResultAt stations model v (x, y)) := by
  unfold pointEval pointResultAt
  rw [if_neg (by
    rw [List.length_eq_zero]
    exact t0CandidatesAt_ne_nil stations model v x y hvp hv)]
  rw [if_neg (by
    rw [List.length_eq_zero]
    unfold residualsAt
    intro hmap
    exact hv (List.map_eq_nil.mp hmap))]

lemma foldl_bestStep_some (f : ℝ × ℝ → LocationResult) :
    ∀ (pts : List (ℝ × ℝ)) (b : LocationResult),
      ∃ r, pts.foldl (fun best p => bestStep best (some (f p))) (some b) = some r ∧
        r.rms ≤ b.rms ∧ (∀ q ∈ pts, r.rms ≤ (f q).rms) ∧
        (r = b ∨ ∃ pre p post, pts = pre ++ p :: post ∧ r = f p ∧ (f p).rms < b.rms ∧
          ∀ q ∈ pre, (f p).rms < (f q).rms) := by
  intro pts
  induction pts with
  | nil =>
    intro b
    exact ⟨b, rfl, le_refl _, by simp, Or.inl rfl⟩
  | cons p0 rest ih =>
    intro b
    by_cases hc : (f p0).rms < b.rms
    · obtain ⟨r, hfold, hrb, hall, hcase⟩ := ih (f p0)
      have hstep : (p0 :: rest).foldl (fun best p => bestStep best (some (f p))) (some b)
          = rest.foldl (fun best p => bestStep best (some (f p))) (some (f p0)) := by
        rw [List.foldl_cons]
        simp only [bestStep]
        rw [if_pos hc]
      refine ⟨r, hstep ▸ hfold, le_trans hrb (le_of_lt hc), ?_, ?_⟩
      · intro q hq
        rcases List.mem_cons.mp hq with h | h
        · exact h ▸ hrb
        · exact hall q h
      · rcases hcase with h | ⟨pre, p, post, hsplit, hr, hlt, hpre⟩
        · exact Or.inr ⟨[], p0, rest, rfl, h, hc, by simp⟩
        · refine Or.inr ⟨p0 :: pre, p, post, by rw [hsplit]; rfl, hr, lt_trans hlt hc, ?_⟩
          intro q hq
          rcases List.mem_cons.mp hq with h | h
          · exact h ▸ hlt
          · exact hpre q h
    · obtain ⟨r, hfold, hrb, hall, hcase⟩ := ih b
      have hstep : (p0 :: rest).foldl (fun best p => bestStep best (some (f p))) (some b)
          = rest.foldl (fun best p => bestStep best (some (f p))) (some b) := by
        rw [List.foldl_cons]
        simp only [bestStep]
        rw [if_neg hc]
      refine ⟨r, hstep ▸ hfold, hrb, ?_, ?_⟩
      · intro q hq
        rcases List.mem_cons.mp hq with h | h
        · exact h ▸ le_trans hrb (not_lt.mp hc)
        · exact hall q h
      · rcases hcase with h | ⟨pre, p, post, hsplit, hr, hlt, hpre⟩
        · exact Or.inl h
        · refine Or.inr ⟨p0 :: pre, p, post, by rw [hsplit]; rfl, hr, hlt, ?_⟩
          intro q hq
          rcases List.mem_cons.mp hq with h | h
          · exact h ▸ lt_of_lt_of_le hlt (not_lt.mp hc)
          · exact hpre q h

lemma foldl_bestStep_argmin (f : ℝ × ℝ → LocationResult) (pts : List (ℝ × ℝ))
    (hpts : pts ≠ []) :
    ∃ pre p post, pts = pre ++ p :: post ∧
      pts.foldl (fun best q => bestStep best (some (f q))) none = some (f p) ∧
      (∀ q ∈ pre, (f p).rms < (f q).rms) ∧ (∀ q ∈ pts, (f p).rms ≤ (f q).rms) := by
  match pts with
  | [] => exact absurd rfl hpts
  | p0 :: rest =>
    have hstep : (p0 :: rest).foldl (fun best q => bestStep best (some (f q))) none
        = rest.foldl (fun best q => bestStep best (some (f q))) (some (f p0)) := by
      rw [List.foldl_cons]
      rfl
    obtain ⟨r, hfold, hrb, hall, hcase⟩ := foldl_bestStep_some f rest (f p0)
    rcases hcase with h | ⟨pre, p, post, hsplit, hr, hlt, hpre⟩
    · refine ⟨[], p0, rest, rfl, ?_, by simp, ?_⟩
      · rw [hstep, hfold, h]
      · intro q hq
        rcases List.mem_cons.mp hq with hh | hh
        · exact hh ▸ le_refl _
        · exact h ▸ hall q hh
    · refine ⟨p0 :: pre, p, post, by rw [hsplit]; rfl, ?_, ?_, ?_⟩
      · rw [hstep, hfold, hr]
      · intro q hq
        rcases List.mem_cons.mp hq with hh | hh
        · exact hh ▸ hlt
        · exact hpre q hh
      · intro q hq
        rcases List.mem_cons.mp hq with hh | hh
        · exact hh ▸ le_of_lt hlt
        · exact hr ▸ hall q hh

/-- C2: under positive velocities, with at least one valid observation,
enough valid observations, and a nonempty grid, the locator returns the
result of the first grid point (in the x-outer, y-inner scan order)
attaining the minimal RMS, strict comparison breaking ties in favour of
the earlier point; at that point the origin time is the NumPy median
(average of the two middle values for an even pool) of the pooled
candidates t_p - d/vp and t_s - d/vs over all valid observations, the
residuals are t_p - (t0 + d/vp) per station, and the RMS is the square
root of the mean squared residual. -/
theorem c2_locator_grid_search (stations : List Station) (obs : List PSObservation)
    (model : OneDVelocityModel) (gridX gridY : ℝ × ℝ × ℝ) (minStations : ℕ)
    (hvp : 0 < model.vp) (hvs : 0 < model.vs)
    (hne : validObs stations obs ≠ [])
    (hmin : minStations ≤ (validObs stations obs).length)
    (hpts : gridPts gridX gridY ≠ []) :
    ∃ (r : LocationResult) (pre post : List (ℝ × ℝ)),
      locateEvent1d stations obs model gridX gridY minStations = some r ∧
      gridPts gridX gridY = pre ++ (r.x, r.y) :: post ∧
      r.t0 = npMedian (t0CandidatesAt stations model (validObs stations obs) r.x r.y) ∧
      r.residuals = residualsAt stations model (validObs stations obs) r.t0 r.x r.y ∧
      r.rms = Real.sqrt (meanList
        ((residualsAt stations model (validObs stations obs) r.t0 r.x r.y).map
          fun q => q.2 ^ 2)) ∧
      r.used_stations = (validObs stations obs).length ∧
      r.notes = "OK (superficial homogéneo)" ∧
      (∀ q ∈ pre,
        r.rms < (pointResultAt stations model (validObs stations obs) q).rms) ∧
      (∀ q ∈ gridPts gridX gridY,
        r.rms ≤ (pointResultAt stations model (validObs stations obs) q).rms) := by
  have hobs : ¬(obs.length < minStations) := by
    have hle : (validObs stations obs).length ≤ obs.length := List.length_filter_le _ _
    omega
  have hfun : (fun (best : Option LocationResult) (p : ℝ × ℝ) =>
      bestStep best (pointEval stations model (validObs stations obs) p.1 p.2))
      = fun best p => bestStep best (some (pointResultAt stations model
          (validObs stations obs) p)) := by
    funext best p
    rw [pointEval_eq stations model (validObs stations obs) p.1 p.2 (ne_of_gt hvp) hne]
  obtain ⟨pre, p, post, hsplit, hfold, hstrict, hall⟩ :=
    foldl_bestStep_argmin (pointResultAt stations model (validObs stations obs))
      (gridPts gridX gridY) hpts
  have hloc : locateEvent1d stations obs model gridX gridY minStations
      = some (pointResultAt stations model (validObs stations obs) p) := by
    simp only [locateEvent1d]
    rw [if_neg hobs, if_neg (not_lt.mpr hmin), hfun, hfold]
  refine ⟨pointResultAt stations model (validObs stations obs) p, pre, post, hloc, ?_,
    rfl, rfl, ?_, ?_, rfl, hstrict, hall⟩
  · have hxy : ((pointResultAt stations model (validObs stations obs) p).x,
        (pointResultAt stations model (validObs stations obs) p).y) = p := rfl
    rw [hxy]
    exact hsplit
  · exact rmsOfResiduals_eq_sqrt_mean _
  · exact List.length_map _ _

lemma flatMap_pairs_ne_nil {l1 l2 : List ℝ} (h1 : l1 ≠ []) (h2 : l2 ≠ []) :
    (l1.flatMap fun x => l2.map fun y => (x, y)) ≠ [] := by
  match l1 with
  | [] => exact absurd rfl h1
  | x :: t =>
    rw [List.flatMap_cons]
    intro h
    exact h2 (List.map_eq_nil_iff.mp (List.append_eq_nil.mp h).1)

/-- Witness for C2: two stations with identical valid observations on a
single-point grid. -/
theorem c2_locator_grid_search_witness :
    ∃ (r : LocationResult) (pre post : List (ℝ × ℝ)),
      locateEvent1d [⟨"A", 0, 0⟩, ⟨"B", 1, 0⟩] [⟨"A", 1, 2⟩, ⟨"B", 1, 2⟩] ⟨6, 3.5⟩
        (0, 0, 2) (0, 0, 2) 2 = some r ∧
      gridPts (0, 0, 2) (0, 0, 2) = pre ++ (r.x, r.y) :: post ∧
      r.t0 = npMedian (t0CandidatesAt [⟨"A", 0, 0⟩, ⟨"B", 1, 0⟩] ⟨6, 3.5⟩
        (validObs [⟨"A", 0, 0⟩, ⟨"B", 1, 0⟩] [⟨"A", 1, 2⟩, ⟨"B", 1, 2⟩]) r.x r.y) ∧
      r.residuals = residualsAt [⟨"A", 0, 0⟩, ⟨"B", 1, 0⟩] ⟨6, 3.5⟩
        (validObs [⟨"A", 0, 0⟩, ⟨"B", 1, 0⟩] [⟨"A", 1, 2⟩, ⟨"B", 1, 2⟩]) r.t0 r.x r.y ∧
      r.rms = Real.sqrt (meanList
        ((residualsAt [⟨"A", 0, 0⟩, ⟨"B", 1, 0⟩] ⟨6, 3.5⟩
          (validObs [⟨"A", 0, 0⟩, ⟨"B", 1, 0⟩] [⟨"A", 1, 2⟩, ⟨"B", 1, 2⟩]) r.t0 r.x r.y).map
          fun q => q.2 ^ 2)) ∧
      r.used_stations
        = (validObs [⟨"A", 0, 0⟩, ⟨"B", 1, 0⟩] [⟨"A", 1, 2⟩, ⟨"B", 1, 2⟩]).length ∧
      r.notes = "OK (superficial homogéneo)" ∧
      (∀ q ∈ pre, r.rms < (pointResultAt [⟨"A", 0, 0⟩, ⟨"B", 1, 0⟩] ⟨6, 3.5⟩
        (validObs [⟨"A", 0, 0⟩, ⟨"B", 1, 0⟩] [⟨"A", 1, 2⟩, ⟨"B", 1, 2⟩]) q).rms) ∧
      (∀ q ∈ gridPts (0, 0, 2) (0, 0, 2),
        r.rms ≤ (pointResultAt [⟨"A", 0, 0⟩, ⟨"B", 1, 0⟩] ⟨6, 3.5⟩
          (validObs [⟨"A", 0, 0⟩, ⟨"B", 1, 0⟩] [⟨"A", 1, 2⟩, ⟨"B", 1, 2⟩]) q).rms) := by
  have hv : validObs [⟨"A", 0, 0⟩, ⟨"B", 1, 0⟩] [⟨"A", 1, 2⟩, ⟨"B", 1, 2⟩]
      = [⟨"A", 1, 2⟩, ⟨"B", 1, 2⟩] := by
    norm_num [validObs, lookupStation]
    all_goals decide
  have hc : (⌈((0 : ℝ) + 1e-9 - 0) / 2⌉ : ℤ) = 1 := by
    rw [Int.ceil_eq_iff]
    constructor <;> norm_num
  have harange : npArange 0 ((0 : ℝ) + 1e-9) 2 ≠ [] := by
    intro h
    have hlen := congrArg List.length h
    unfold npArange at hlen
    rw [if_neg (by norm_num : ¬((2 : ℝ) = 0))] at hlen
    rw [List.length_map, List.length_range, hc] at hlen
    exact absurd hlen (by decide)
  have hpts : gridPts (0, 0, 2) (0, 0, 2) ≠ [] := by
    unfold gridPts
    exact flatMap_pairs_ne_nil harange harange
  exact c2_locator_grid_search [⟨"A", 0, 0⟩, ⟨"B", 1, 0⟩] [⟨"A", 1, 2⟩, ⟨"B", 1, 2⟩]
    ⟨6, 3.5⟩ (0, 0, 2) (0, 0, 2) 2 (by norm_num) (by norm_num)
    (by rw [hv]; exact List.cons_ne_nil _ _) (by rw [hv]; decide) hpts

end Seismic
